import Mathlib

/-!
Shallow embedding of the `Magnifier` class from `magnifier.js`
(html-magnifier).  Pixel coordinates, element dimensions and
configuration values are modelled as rationals; JavaScript objects with
possibly-missing fields become structures with `Option` fields; the
browser's timer handles (`setInterval` / `setTimeout` /
`requestAnimationFrame`) are modelled by a monotone handle counter
`nextTimerId` together with the list `activeTimers` of handles that are
currently live.  Asynchronous `html2canvas` captures are modelled by
explicit completion events (`pageCaptureSuccess`, `pageCaptureFailure`,
`svgCaptureSuccess`, `svgCaptureFailure`) plus a system-level counter of
in-flight captures per raster kind.
-/

namespace HtmlMagnifier

/-- The `activationMode` option: `'drag'` or `'move'`. -/
inductive Mode where
  | drag
  | move
deriving DecidableEq, Repr

/-- A raster produced by `html2canvas`: an opaque bitmap of which only the
pixel dimensions matter to the magnifier's coordinate mapping. -/
structure Canvas where
  width : ℚ
  height : ℚ
deriving DecidableEq, Repr

/-- A `getBoundingClientRect()` result.  `right` and `bottom` are the
derived fields `left + width` and `top + height`, as they always are for
a bounding client rect. -/
structure Rect where
  left : ℚ
  top : ℚ
  width : ℚ
  height : ℚ
deriving DecidableEq, Repr

def Rect.right (r : Rect) : ℚ := r.left + r.width

def Rect.bottom (r : Rect) : ℚ := r.top + r.height

/-- The `updateFrequency` option object; each field may be missing
(`undefined` in JavaScript). -/
structure UFOptions where
  MAIN_SNAPSHOT : Option ℚ
  SVG_SNAPSHOT : Option ℚ
  RESIZE_DEBOUNCE : Option ℚ
deriving DecidableEq, Repr

/-- The options object passed to `new Magnifier(options)`; every
recognized option may be missing. -/
structure Options where
  size : Option ℚ
  zoom : Option ℚ
  position : Option (ℚ × ℚ)
  activationMode : Option Mode
  updateFrequency : Option UFOptions
deriving DecidableEq, Repr

/-- The empty options object `{}`. -/
def defaultOpts : Options := ⟨none, none, none, none, none⟩

/-- The instance state of a `Magnifier`.  The stored `updateFrequency`
object is kept as its three (possibly missing) fields `ufMain`, `ufSvg`,
`ufResize`.  DOM references (`magnifierElement`, `canvas`, `ctx`) are
modelled by presence booleans, and `magnifierAttached` /
`magnifierVisible` / `listenersAttached` record the DOM side effects. -/
structure MagState where
  size : ℚ
  zoom : ℚ
  positionX : ℚ
  positionY : ℚ
  activationMode : Mode
  ufMain : Option ℚ
  ufSvg : Option ℚ
  ufResize : Option ℚ
  isDragging : Bool
  lastMouseX : ℚ
  lastMouseY : ℚ
  snapshotCanvas : Option Canvas
  isSnapshotting : Bool
  snapshotTimer : Option ℕ
  snapshotInterval : Option ℕ
  svgSnapshotCanvas : Option Canvas
  isSvgSnapshotting : Bool
  svgSnapshotInterval : Option ℕ
  rafId : Option ℕ
  magnifierElement : Bool
  magnifierAttached : Bool
  magnifierVisible : Bool
  canvas : Bool
  ctx : Bool
  listenersAttached : Bool
  activeTimers : List ℕ
  nextTimerId : ℕ
deriving DecidableEq, Repr

/-- JavaScript `v || d` for a possibly-missing numeric option: `undefined`
and `0` (and `NaN`, not representable here) are falsy and yield the
default. -/
def jsOrNum (v : Option ℚ) (d : ℚ) : ℚ :=
  match v with
  | some x => if x = 0 then d else x
  | none => d

/-- The `Magnifier` constructor (lines 20–48 of `magnifier.js`): option
defaulting plus the initial field values.  The asynchronous `init()` work
(element creation, listener attachment) is modelled by the separate
functions below. -/
def mkMagnifier (o : Options) : MagState where
  size := jsOrNum o.size 200
  zoom := jsOrNum o.zoom 2
  positionX := (o.position.getD (20, 20)).1
  positionY := (o.position.getD (20, 20)).2
  activationMode := o.activationMode.getD Mode.drag
  ufMain := (o.updateFrequency.getD ⟨some 16, some 16, some 150⟩).MAIN_SNAPSHOT
  ufSvg := (o.updateFrequency.getD ⟨some 16, some 16, some 150⟩).SVG_SNAPSHOT
  ufResize := (o.updateFrequency.getD ⟨some 16, some 16, some 150⟩).RESIZE_DEBOUNCE
  isDragging := false
  lastMouseX := 0
  lastMouseY := 0
  snapshotCanvas := none
  isSnapshotting := false
  snapshotTimer := none
  snapshotInterval := none
  svgSnapshotCanvas := none
  isSvgSnapshotting := false
  svgSnapshotInterval := none
  rafId := none
  magnifierElement := false
  magnifierAttached := false
  magnifierVisible := false
  canvas := false
  ctx := false
  listenersAttached := false
  activeTimers := []
  nextTimerId := 0

/-- `clearInterval` / `clearTimeout`: the handle stops being live. -/
def clearTimer (h : ℕ) (s : MagState) : MagState :=
  { s with activeTimers := s.activeTimers.filter (fun t => t ≠ h) }

/-- `createMagnifierElement()`: builds the overlay `div` (initially
hidden) with its canvas and 2d context and appends it to the body. -/
def createMagnifierElement (s : MagState) : MagState :=
  { s with magnifierElement := true, magnifierAttached := true,
           magnifierVisible := false, canvas := true, ctx := true }

/-- `attachEventListeners()`. -/
def attachEventListeners (s : MagState) : MagState :=
  { s with listenersAttached := true }

/-- `removeEventListeners()`. -/
def removeEventListeners (s : MagState) : MagState :=
  { s with listenersAttached := false }

/-- `startPeriodicSnapshot()`: clear any existing main interval, then
install a fresh one. -/
def startPeriodicSnapshot (s : MagState) : MagState :=
  let s1 := match s.snapshotInterval with
    | some h => clearTimer h s
    | none => s
  { s1 with snapshotInterval := some s1.nextTimerId,
            activeTimers := s1.nextTimerId :: s1.activeTimers,
            nextTimerId := s1.nextTimerId + 1 }

/-- `startSvgSnapshot()`: a no-op when the dynamic SVG element is absent
or `html2canvas` is unavailable; otherwise clear any existing region
interval and install a fresh one. -/
def startSvgSnapshot (svgExists loaded : Bool) (s : MagState) : MagState :=
  if svgExists && loaded then
    let s1 := match s.svgSnapshotInterval with
      | some h => clearTimer h s
      | none => s
    { s1 with svgSnapshotInterval := some s1.nextTimerId,
              activeTimers := s1.nextTimerId :: s1.activeTimers,
              nextTimerId := s1.nextTimerId + 1 }
  else s

/-- `stopPeriodicSnapshot()`: cancel both periodic intervals (but not the
resize/scroll debounce timeout). -/
def stopPeriodicSnapshot (s : MagState) : MagState :=
  let s1 := match s.snapshotInterval with
    | some h => { clearTimer h s with snapshotInterval := none }
    | none => s
  match s1.svgSnapshotInterval with
  | some h => { clearTimer h s1 with svgSnapshotInterval := none }
  | none => s1

/-- `handleResizeOrScroll()`: debounce — clear any pending timeout and
arm a fresh one that will take a page snapshot. -/
def handleResizeOrScroll (s : MagState) : MagState :=
  let s1 := match s.snapshotTimer with
    | some h => clearTimer h s
    | none => s
  { s1 with snapshotTimer := some s1.nextTimerId,
            activeTimers := s1.nextTimerId :: s1.activeTimers,
            nextTimerId := s1.nextTimerId + 1 }

/-- The `.then` callback of the page `html2canvas` call in
`takeSnapshot()`: store the new raster, clear the in-flight flag, and
schedule a redraw when none is scheduled. -/
def pageCaptureSuccess (c : Canvas) (s : MagState) : MagState :=
  let s1 := { s with snapshotCanvas := some c, isSnapshotting := false }
  if s1.rafId = none then
    { s1 with rafId := some s1.nextTimerId, nextTimerId := s1.nextTimerId + 1 }
  else s1

/-- The `.catch` callback of the page `html2canvas` call in
`takeSnapshot()`: log and clear the in-flight flag; the cached raster is
not touched. -/
def pageCaptureFailure (s : MagState) : MagState :=
  { s with isSnapshotting := false }

/-- The `.then` callback of the region `html2canvas` call inside the
`startSvgSnapshot()` interval body; `overSvg` is the hit test of the
stored pointer position against the SVG's current bounding rect. -/
def svgCaptureSuccess (c : Canvas) (overSvg : Bool) (s : MagState) : MagState :=
  let s1 := { s with svgSnapshotCanvas := some c, isSvgSnapshotting := false }
  if overSvg = true ∧ s1.rafId = none then
    { s1 with rafId := some s1.nextTimerId, nextTimerId := s1.nextTimerId + 1 }
  else s1

/-- The `.catch` callback of the region `html2canvas` call. -/
def svgCaptureFailure (s : MagState) : MagState :=
  { s with isSvgSnapshotting := false }

/-- `updateMagnifierVisibility()`. -/
def updateMagnifierVisibility (s : MagState) : MagState :=
  if s.magnifierElement then
    { s with magnifierVisible := s.activationMode = Mode.move || s.isDragging }
  else s

/-- `updatePosition(x, y)`: in move mode always update; in drag mode only
while dragging. -/
def updatePosition (x y : ℚ) (s : MagState) : MagState :=
  if s.activationMode = Mode.move || s.isDragging then
    { s with lastMouseX := x, lastMouseY := y }
  else s

/-- `handleMouseDown(e)`. -/
def handleMouseDown (x y : ℚ) (svgExists loaded : Bool) (s : MagState) : MagState :=
  startSvgSnapshot svgExists loaded
    (startPeriodicSnapshot
      (updatePosition x y
        (updateMagnifierVisibility { s with isDragging := true })))

/-- `handleMouseMove(e)`. -/
def handleMouseMove (x y : ℚ) (svgExists loaded : Bool) (s : MagState) : MagState :=
  if s.activationMode = Mode.move then
    let s1 := updateMagnifierVisibility (updatePosition x y s)
    if s1.snapshotInterval = none then
      startSvgSnapshot svgExists loaded (startPeriodicSnapshot s1)
    else s1
  else if s.isDragging then
    updatePosition x y s
  else s

/-- `handleMouseUp(e)`. -/
def handleMouseUp (s : MagState) : MagState :=
  let s1 := updateMagnifierVisibility { s with isDragging := false }
  if s1.activationMode = Mode.drag then stopPeriodicSnapshot s1 else s1

/-- `handleMouseLeave(e)`. -/
def handleMouseLeave (s : MagState) : MagState :=
  if s.activationMode = Mode.move then
    let s1 := if s.magnifierElement then { s with magnifierVisible := false } else s
    stopPeriodicSnapshot s1
  else s

/-- `handleTouchStart(e)`: reset `isDragging` and record the initial
touch point (when a touch is present). -/
def handleTouchStart (touches : List (ℚ × ℚ)) (s : MagState) : MagState :=
  let s1 := { s with isDragging := false }
  match touches with
  | [] => s1
  | t :: _ => { s1 with lastMouseX := t.1, lastMouseY := t.2 }

/-- `Math.abs`. -/
def mathAbs (q : ℚ) : ℚ := if q < 0 then -q else q

/-- `handleTouchMove(e)`: everything is gated on the 5 px movement
threshold measured from the stored pointer position; the first
over-threshold move also activates dragging and starts the periodic
captures. -/
def handleTouchMove (touches : List (ℚ × ℚ)) (svgExists loaded : Bool)
    (s : MagState) : MagState :=
  match touches with
  | [] => s
  | t :: _ =>
    if mathAbs (t.1 - s.lastMouseX) > 5 ∨ mathAbs (t.2 - s.lastMouseY) > 5 then
      let s1 :=
        if s.isDragging then s
        else
          startSvgSnapshot svgExists loaded
            (startPeriodicSnapshot
              (updateMagnifierVisibility { s with isDragging := true }))
      updatePosition t.1 t.2 s1
    else s

/-- `handleTouchEnd(e)`. -/
def handleTouchEnd (s : MagState) : MagState :=
  let s1 := updateMagnifierVisibility { s with isDragging := false }
  if s1.activationMode = Mode.drag then stopPeriodicSnapshot s1 else s1

/-- `destroy()`: stop the periodic intervals, detach listeners, remove
the overlay element when it is in the page, and null out the element,
canvas, context and both cached rasters.  (The debounce timeout
`snapshotTimer` is not touched.) -/
def destroy (s : MagState) : MagState :=
  let s1 := stopPeriodicSnapshot s
  let s2 := removeEventListeners s1
  let s3 := if s2.magnifierElement = true ∧ s2.magnifierAttached = true then
      { s2 with magnifierAttached := false }
    else s2
  { s3 with magnifierElement := false, canvas := false, ctx := false,
            snapshotCanvas := none, svgSnapshotCanvas := none }

/-! ### Coordinate mappings (the three source-rectangle computations in
`drawMagnifier`, lines 427–530) -/

/-- Direct-element mapping (lines 428–435): element-local pointer
coordinates, source rectangle of side `sourceSize` centered on the
pointer, clamped to the element's own box.  Returns `(sx, sy, side)` as
the `drawImage` call receives them. -/
def directSourceRect (mouseX mouseY : ℚ) (r : Rect) (sourceSize : ℚ) : ℚ × ℚ × ℚ :=
  let elemX := mouseX - r.left
  let elemY := mouseY - r.top
  (max 0 (min (elemX - sourceSize / 2) (r.width - sourceSize)),
   max 0 (min (elemY - sourceSize / 2) (r.height - sourceSize)),
   sourceSize)

/-- Region-raster mapping (lines 455–470): element-local coordinates are
scaled by `snapW / r.width` into raster coordinates; the source square of
side `sourceSize * scale` is centered there and clamped against the
raster's dimensions.  Returns `(sx, sy, side)` in raster coordinates. -/
def regionSourceRect (mouseX mouseY : ℚ) (r : Rect) (snapW snapH : ℚ)
    (sourceSize : ℚ) : ℚ × ℚ × ℚ :=
  let elemX := mouseX - r.left
  let elemY := mouseY - r.top
  let svgScale := snapW / r.width
  let snapX := elemX * svgScale
  let snapY := elemY * svgScale
  let sourceSizeScaled := sourceSize * svgScale
  (max 0 (min (snapX - sourceSizeScaled / 2) (snapW - sourceSizeScaled)),
   max 0 (min (snapY - sourceSizeScaled / 2) (snapH - sourceSizeScaled)),
   sourceSizeScaled)

/-- Page-raster mapping (lines 502–530): viewport coordinates plus scroll
give document coordinates, scaled by `raster / document` dimension ratios
(the JavaScript `|| 1` fallback for a falsy ratio is kept), centered and
clamped against the raster's dimensions.  Returns `(sx, sy, side)` as the
`drawImage` call receives them. -/
def pageSourceRect (scrollX scrollY mouseX mouseY docW docH snapW snapH
    sourceSize : ℚ) : ℚ × ℚ × ℚ :=
  let snapScaleX := if snapW / docW = 0 then 1 else snapW / docW
  let snapScaleY := if snapH / docH = 0 then 1 else snapH / docH
  let docX := scrollX + mouseX
  let docY := scrollY + mouseY
  let snapX := docX * snapScaleX
  let snapY := docY * snapScaleY
  (max 0 (min (snapX - sourceSize / 2) (snapW - sourceSize)),
   max 0 (min (snapY - sourceSize / 2) (snapH - sourceSize)),
   sourceSize)

/-! ### The per-frame draw (`drawMagnifier`, lines 391–553) -/

/-- The per-frame environment read from the DOM: the two optional dynamic
elements and their bounding rects, whether the dynamic-canvas element is
genuinely an `HTMLCanvasElement`, document/scroll metrics, and whether
each of the three `ctx.drawImage` calls would throw (e.g. a tainted
source). -/
structure DrawEnv where
  dynamicCanvas : Option Rect
  canvasIsCanvasElement : Bool
  dynamicSvg : Option Rect
  docWidth : ℚ
  docHeight : ℚ
  scrollX : ℚ
  scrollY : ℚ
  canvasBlitFails : Bool
  svgBlitFails : Bool
  pageBlitFails : Bool
deriving DecidableEq, Repr

/-- The three blit sources of the draw dispatch. -/
inductive BlitSource where
  | directCanvas
  | regionRaster
  | pageRaster
deriving DecidableEq, Repr

/-- What a single `drawMagnifier` invocation paints.  `blitFailed src pl`
means the `drawImage` for `src` threw, the exception was caught, and an
error placeholder was painted iff `pl`; `propagated` (an uncaught
exception escaping `drawMagnifier`) is never produced — every blit sits
in a `try`/`catch`. -/
inductive DrawResult where
  | skipped
  | loading
  | blit (src : BlitSource) (sx sy side : ℚ)
  | blitFailed (src : BlitSource) (placeholder : Bool)
  | propagated (src : BlitSource)
deriving DecidableEq, Repr

/-- The source an outcome sampled from, if any. -/
def resultSource : DrawResult → Option BlitSource
  | DrawResult.blit src _ _ _ => some src
  | DrawResult.blitFailed src _ => some src
  | DrawResult.propagated src => some src
  | _ => none

/-- The `isOverDynamicCanvas` / `isOverDynamicSvg` hit test (lines
410–424): inside the bounding rect, with an absent element simply
yielding `false`. -/
def overElem (r? : Option Rect) (x y : ℚ) : Bool :=
  match r? with
  | some r =>
      decide (r.left ≤ x ∧ x ≤ r.right ∧ r.top ≤ y ∧ y ≤ r.bottom)
  | none => false

/-- The direct-canvas branch (lines 427–451): taken when the pointer is
over the dynamic canvas and it is a genuine canvas element.  The catch
handler only logs — no placeholder. -/
def directPath (e : DrawEnv) (s : MagState) (sourceSize : ℚ) :
    Option DrawResult :=
  match e.dynamicCanvas with
  | some r =>
      if overElem (some r) s.lastMouseX s.lastMouseY &&
          e.canvasIsCanvasElement then
        let p := directSourceRect s.lastMouseX s.lastMouseY r sourceSize
        some (if e.canvasBlitFails then
                DrawResult.blitFailed BlitSource.directCanvas false
              else DrawResult.blit BlitSource.directCanvas p.1 p.2.1 p.2.2)
      else none
  | none => none

/-- The region-raster branch (lines 454–486): taken when the pointer is
over the dynamic SVG and a region raster is cached.  The catch handler
only logs — no placeholder. -/
def regionPath (e : DrawEnv) (s : MagState) (sourceSize : ℚ) :
    Option DrawResult :=
  match e.dynamicSvg, s.svgSnapshotCanvas with
  | some r, some snap =>
      if overElem (some r) s.lastMouseX s.lastMouseY then
        let p := regionSourceRect s.lastMouseX s.lastMouseY r
          snap.width snap.height sourceSize
        some (if e.svgBlitFails then
                DrawResult.blitFailed BlitSource.regionRaster false
              else DrawResult.blit BlitSource.regionRaster p.1 p.2.1 p.2.2)
      else none
  | _, _ => none

/-- The page-raster branch (lines 489–552): a loading placeholder when no
page raster is cached yet; otherwise the page-mapped blit, whose catch
handler paints the `Draw failed` placeholder. -/
def pagePath (e : DrawEnv) (s : MagState) (sourceSize : ℚ) : DrawResult :=
  match s.snapshotCanvas with
  | none => DrawResult.loading
  | some snap =>
      let p := pageSourceRect e.scrollX e.scrollY s.lastMouseX s.lastMouseY
        e.docWidth e.docHeight snap.width snap.height sourceSize
      if e.pageBlitFails then DrawResult.blitFailed BlitSource.pageRaster true
      else DrawResult.blit BlitSource.pageRaster p.1 p.2.1 p.2.2

/-- `drawMagnifier()`: early-out without canvas/context; otherwise the
three-way dispatch (the code's early `return`s become an option chain)
and `rafId = null` on every completed path. -/
def drawMagnifier (e : DrawEnv) (s : MagState) : DrawResult × MagState :=
  if s.canvas && s.ctx then
    let sourceSize := s.size / s.zoom
    let res := match directPath e s sourceSize with
      | some r => r
      | none =>
        match regionPath e s sourceSize with
        | some r => r
        | none => pagePath e s sourceSize
    (res, { s with rafId := none })
  else (DrawResult.skipped, s)

/-! ### System level: in-flight captures

A `Sys` pairs the instance state with the number of asynchronous
`html2canvas` calls currently pending per raster kind; a capture
completion event can only fire when such a call is pending. -/

structure Sys where
  st : MagState
  pendingPage : ℕ
  pendingSvg : ℕ
deriving DecidableEq, Repr

/-- `takeSnapshot()` (lines 305–329) at system level: a no-op while a
page capture is in flight or `html2canvas` is unavailable; otherwise the
flag is raised and one asynchronous capture is issued.  (The periodic
interval body, the debounce timeout, and the initial snapshot all go
through this.) -/
def sysTakeSnapshot (loaded : Bool) (y : Sys) : Sys :=
  if y.st.isSnapshotting || !loaded then y
  else ⟨{ y.st with isSnapshotting := true }, y.pendingPage + 1, y.pendingSvg⟩

/-- One firing of the `startSvgSnapshot()` interval body (lines 349–377):
a no-op while a region capture is in flight; otherwise the flag is raised
and one asynchronous capture is issued. -/
def sysSvgTick (y : Sys) : Sys :=
  if y.st.isSvgSnapshotting then y
  else ⟨{ y.st with isSvgSnapshotting := true }, y.pendingPage, y.pendingSvg + 1⟩

/-- Events of the cooperative event loop: handler invocations, timer
firings, capture completions, frame draws and teardown. -/
inductive Step : Sys → Sys → Prop where
  | takeSnap (loaded : Bool) (y : Sys) : Step y (sysTakeSnapshot loaded y)
  | svgTick (y : Sys) : Step y (sysSvgTick y)
  | pageDone (ok : Bool) (c : Canvas) (y : Sys) : 1 ≤ y.pendingPage →
      Step y ⟨if ok then pageCaptureSuccess c y.st else pageCaptureFailure y.st,
              y.pendingPage - 1, y.pendingSvg⟩
  | svgDone (ok : Bool) (c : Canvas) (overSvg : Bool) (y : Sys) :
      1 ≤ y.pendingSvg →
      Step y ⟨if ok then svgCaptureSuccess c overSvg y.st
              else svgCaptureFailure y.st,
              y.pendingPage, y.pendingSvg - 1⟩
  | createElem (y : Sys) : Step y ⟨createMagnifierElement y.st, y.pendingPage, y.pendingSvg⟩
  | attach (y : Sys) : Step y ⟨attachEventListeners y.st, y.pendingPage, y.pendingSvg⟩
  | mouseDown (x v : ℚ) (svgExists loaded : Bool) (y : Sys) :
      Step y ⟨handleMouseDown x v svgExists loaded y.st, y.pendingPage, y.pendingSvg⟩
  | mouseMove (x v : ℚ) (svgExists loaded : Bool) (y : Sys) :
      Step y ⟨handleMouseMove x v svgExists loaded y.st, y.pendingPage, y.pendingSvg⟩
  | mouseUp (y : Sys) : Step y ⟨handleMouseUp y.st, y.pendingPage, y.pendingSvg⟩
  | mouseLeave (y : Sys) : Step y ⟨handleMouseLeave y.st, y.pendingPage, y.pendingSvg⟩
  | touchStart (touches : List (ℚ × ℚ)) (y : Sys) :
      Step y ⟨handleTouchStart touches y.st, y.pendingPage, y.pendingSvg⟩
  | touchMove (touches : List (ℚ × ℚ)) (svgExists loaded : Bool) (y : Sys) :
      Step y ⟨handleTouchMove touches svgExists loaded y.st, y.pendingPage, y.pendingSvg⟩
  | touchEnd (y : Sys) : Step y ⟨handleTouchEnd y.st, y.pendingPage, y.pendingSvg⟩
  | resizeOrScroll (y : Sys) : Step y ⟨handleResizeOrScroll y.st, y.pendingPage, y.pendingSvg⟩
  | draw (e : DrawEnv) (y : Sys) :
      Step y ⟨(drawMagnifier e y.st).2, y.pendingPage, y.pendingSvg⟩
  | destroyStep (y : Sys) : Step y ⟨destroy y.st, y.pendingPage, y.pendingSvg⟩

/-- The system right after construction: no capture pending. -/
def initSys (o : Options) : Sys := ⟨mkMagnifier o, 0, 0⟩

/-- States reachable from a freshly constructed instance. -/
inductive Reachable (o : Options) : Sys → Prop where
  | init : Reachable o (initSys o)
  | step {y z : Sys} : Reachable o y → Step y z → Reachable o z

/-- The single-flight coupling: the number of pending captures of each
kind is exactly what the corresponding in-flight flag says. -/
def SysInv (y : Sys) : Prop :=
  y.pendingPage = (if y.st.isSnapshotting then 1 else 0) ∧
  y.pendingSvg = (if y.st.isSvgSnapshotting then 1 else 0)

lemma clearTimer_isSnap (h : ℕ) (s : MagState) :
    (clearTimer h s).isSnapshotting = s.isSnapshotting := rfl

lemma clearTimer_isSvg (h : ℕ) (s : MagState) :
    (clearTimer h s).isSvgSnapshotting = s.isSvgSnapshotting := rfl

lemma startPeriodicSnapshot_isSnap (s : MagState) :
    (startPeriodicSnapshot s).isSnapshotting = s.isSnapshotting := by
  simp only [startPeriodicSnapshot, clearTimer]
  repeat' split
  all_goals simp

lemma startPeriodicSnapshot_isSvg (s : MagState) :
    (startPeriodicSnapshot s).isSvgSnapshotting = s.isSvgSnapshotting := by
  simp only [startPeriodicSnapshot, clearTimer]
  repeat' split
  all_goals simp

lemma startSvgSnapshot_isSnap (svgExists loaded : Bool) (s : MagState) :
    (startSvgSnapshot svgExists loaded s).isSnapshotting = s.isSnapshotting := by
  simp only [startSvgSnapshot, clearTimer]
  repeat' split
  all_goals simp

lemma startSvgSnapshot_isSvg (svgExists loaded : Bool) (s : MagState) :
    (startSvgSnapshot svgExists loaded s).isSvgSnapshotting = s.isSvgSnapshotting := by
  simp only [startSvgSnapshot, clearTimer]
  repeat' split
  all_goals simp

lemma stopPeriodicSnapshot_isSnap (s : MagState) :
    (stopPeriodicSnapshot s).isSnapshotting = s.isSnapshotting := by
  simp only [stopPeriodicSnapshot, clearTimer]
  repeat' split
  all_goals simp

lemma stopPeriodicSnapshot_isSvg (s : MagState) :
    (stopPeriodicSnapshot s).isSvgSnapshotting = s.isSvgSnapshotting := by
  simp only [stopPeriodicSnapshot, clearTimer]
  repeat' split
  all_goals simp

lemma handleResizeOrScroll_isSnap (s : MagState) :
    (handleResizeOrScroll s).isSnapshotting = s.isSnapshotting := by
  simp only [handleResizeOrScroll, clearTimer]
  repeat' split
  all_goals simp

lemma handleResizeOrScroll_isSvg (s : MagState) :
    (handleResizeOrScroll s).isSvgSnapshotting = s.isSvgSnapshotting := by
  simp only [handleResizeOrScroll, clearTimer]
  repeat' split
  all_goals simp

lemma updateMagnifierVisibility_isSnap (s : MagState) :
    (updateMagnifierVisibility s).isSnapshotting = s.isSnapshotting := by
  simp only [updateMagnifierVisibility]
  split <;> simp

lemma updateMagnifierVisibility_isSvg (s : MagState) :
    (updateMagnifierVisibility s).isSvgSnapshotting = s.isSvgSnapshotting := by
  simp only [updateMagnifierVisibility]
  split <;> simp

lemma updatePosition_isSnap (x y : ℚ) (s : MagState) :
    (updatePosition x y s).isSnapshotting = s.isSnapshotting := by
  simp only [updatePosition]
  split <;> simp

lemma updatePosition_isSvg (x y : ℚ) (s : MagState) :
    (updatePosition x y s).isSvgSnapshotting = s.isSvgSnapshotting := by
  simp only [updatePosition]
  split <;> simp

lemma pageCaptureSuccess_isSnap (c : Canvas) (s : MagState) :
    (pageCaptureSuccess c s).isSnapshotting = false := by
  simp only [pageCaptureSuccess]
  split <;> simp

lemma pageCaptureSuccess_isSvg (c : Canvas) (s : MagState) :
    (pageCaptureSuccess c s).isSvgSnapshotting = s.isSvgSnapshotting := by
  simp only [pageCaptureSuccess]
  split <;> simp

lemma pageCaptureFailure_isSnap (s : MagState) :
    (pageCaptureFailure s).isSnapshotting = false := rfl

lemma pageCaptureFailure_isSvg (s : MagState) :
    (pageCaptureFailure s).isSvgSnapshotting = s.isSvgSnapshotting := rfl

lemma svgCaptureSuccess_isSnap (c : Canvas) (ov : Bool) (s : MagState) :
    (svgCaptureSuccess c ov s).isSnapshotting = s.isSnapshotting := by
  simp only [svgCaptureSuccess]
  split <;> simp

lemma svgCaptureSuccess_isSvg (c : Canvas) (ov : Bool) (s : MagState) :
    (svgCaptureSuccess c ov s).isSvgSnapshotting = false := by
  simp only [svgCaptureSuccess]
  split <;> simp

lemma svgCaptureFailure_isSnap (s : MagState) :
    (svgCaptureFailure s).isSnapshotting = s.isSnapshotting := rfl

lemma svgCaptureFailure_isSvg (s : MagState) :
    (svgCaptureFailure s).isSvgSnapshotting = false := rfl

lemma handleMouseDown_isSnap (x y : ℚ) (svgExists loaded : Bool) (s : MagState) :
    (handleMouseDown x y svgExists loaded s).isSnapshotting = s.isSnapshotting := by
  simp [handleMouseDown, startSvgSnapshot_isSnap, startPeriodicSnapshot_isSnap,
        updatePosition_isSnap, updateMagnifierVisibility_isSnap]

lemma handleMouseDown_isSvg (x y : ℚ) (svgExists loaded : Bool) (s : MagState) :
    (handleMouseDown x y svgExists loaded s).isSvgSnapshotting = s.isSvgSnapshotting := by
  simp [handleMouseDown, startSvgSnapshot_isSvg, startPeriodicSnapshot_isSvg,
        updatePosition_isSvg, updateMagnifierVisibility_isSvg]

lemma handleMouseMove_isSnap (x y : ℚ) (svgExists loaded : Bool) (s : MagState) :
    (handleMouseMove x y svgExists loaded s).isSnapshotting = s.isSnapshotting := by
  simp only [handleMouseMove]
  repeat' split
  all_goals
    simp [startSvgSnapshot_isSnap, startPeriodicSnapshot_isSnap,
          updatePosition_isSnap, updateMagnifierVisibility_isSnap]

lemma handleMouseMove_isSvg (x y : ℚ) (svgExists loaded : Bool) (s : MagState) :
    (handleMouseMove x y svgExists loaded s).isSvgSnapshotting = s.isSvgSnapshotting := by
  simp only [handleMouseMove]
  repeat' split
  all_goals
    simp [startSvgSnapshot_isSvg, startPeriodicSnapshot_isSvg,
          updatePosition_isSvg, updateMagnifierVisibility_isSvg]

lemma handleMouseUp_isSnap (s : MagState) :
    (handleMouseUp s).isSnapshotting = s.isSnapshotting := by
  simp only [handleMouseUp]
  split <;>
    simp [stopPeriodicSnapshot_isSnap, updateMagnifierVisibility_isSnap]

lemma handleMouseUp_isSvg (s : MagState) :
    (handleMouseUp s).isSvgSnapshotting = s.isSvgSnapshotting := by
  simp only [handleMouseUp]
  split <;>
    simp [stopPeriodicSnapshot_isSvg, updateMagnifierVisibility_isSvg]

lemma handleMouseLeave_isSnap (s : MagState) :
    (handleMouseLeave s).isSnapshotting = s.isSnapshotting := by
  simp only [handleMouseLeave]
  repeat' split
  all_goals simp [stopPeriodicSnapshot_isSnap]

lemma handleMouseLeave_isSvg (s : MagState) :
    (handleMouseLeave s).isSvgSnapshotting = s.isSvgSnapshotting := by
  simp only [handleMouseLeave]
  repeat' split
  all_goals simp [stopPeriodicSnapshot_isSvg]

lemma handleTouchStart_isSnap (touches : List (ℚ × ℚ)) (s : MagState) :
    (handleTouchStart touches s).isSnapshotting = s.isSnapshotting := by
  simp only [handleTouchStart]
  split <;> simp

lemma handleTouchStart_isSvg (touches : List (ℚ × ℚ)) (s : MagState) :
    (handleTouchStart touches s).isSvgSnapshotting = s.isSvgSnapshotting := by
  simp only [handleTouchStart]
  split <;> simp

lemma handleTouchMove_isSnap (touches : List (ℚ × ℚ)) (svgExists loaded : Bool)
    (s : MagState) :
    (handleTouchMove touches svgExists loaded s).isSnapshotting = s.isSnapshotting := by
  simp only [handleTouchMove]
  repeat' split
  all_goals
    simp [updatePosition_isSnap, startSvgSnapshot_isSnap,
          startPeriodicSnapshot_isSnap, updateMagnifierVisibility_isSnap]

lemma handleTouchMove_isSvg (touches : List (ℚ × ℚ)) (svgExists loaded : Bool)
    (s : MagState) :
    (handleTouchMove touches svgExists loaded s).isSvgSnapshotting = s.isSvgSnapshotting := by
  simp only [handleTouchMove]
  repeat' split
  all_goals
    simp [updatePosition_isSvg, startSvgSnapshot_isSvg,
          startPeriodicSnapshot_isSvg, updateMagnifierVisibility_isSvg]

lemma handleTouchEnd_isSnap (s : MagState) :
    (handleTouchEnd s).isSnapshotting = s.isSnapshotting := by
  simp only [handleTouchEnd]
  split <;>
    simp [stopPeriodicSnapshot_isSnap, updateMagnifierVisibility_isSnap]

lemma handleTouchEnd_isSvg (s : MagState) :
    (handleTouchEnd s).isSvgSnapshotting = s.isSvgSnapshotting := by
  simp only [handleTouchEnd]
  split <;>
    simp [stopPeriodicSnapshot_isSvg, updateMagnifierVisibility_isSvg]

lemma drawMagnifier_isSnap (e : DrawEnv) (s : MagState) :
    (drawMagnifier e s).2.isSnapshotting = s.isSnapshotting := by
  simp only [drawMagnifier]
  split <;> simp

lemma drawMagnifier_isSvg (e : DrawEnv) (s : MagState) :
    (drawMagnifier e s).2.isSvgSnapshotting = s.isSvgSnapshotting := by
  simp only [drawMagnifier]
  split <;> simp

lemma destroy_isSnap (s : MagState) :
    (destroy s).isSnapshotting = s.isSnapshotting := by
  simp only [destroy, removeEventListeners]
  repeat' split
  all_goals simp [stopPeriodicSnapshot_isSnap]

lemma destroy_isSvg (s : MagState) :
    (destroy s).isSvgSnapshotting = s.isSvgSnapshotting := by
  simp only [destroy, removeEventListeners]
  repeat' split
  all_goals simp [stopPeriodicSnapshot_isSvg]

/-- `SysInv` holds for a freshly constructed instance. -/
lemma sysInv_init (o : Options) : SysInv (initSys o) := by
  simp [SysInv, initSys, mkMagnifier]

/-- `SysInv` is preserved by every event of the loop. -/
lemma sysInv_step {y z : Sys} (hy : SysInv y) (hs : Step y z) : SysInv z := by
  obtain ⟨hp, hv⟩ := hy
  cases hs with
  | takeSnap loaded y =>
    simp only [sysTakeSnapshot]
    split
    · exact ⟨hp, hv⟩
    · rename_i h
      have hflag : y.st.isSnapshotting = false := by
        cases hq : y.st.isSnapshotting
        · rfl
        · exact absurd (by simp [hq]) h
      rw [hflag] at hp
      simp only [Bool.false_eq_true, if_false] at hp
      exact ⟨by simp [SysInv, hp], by simpa [SysInv] using hv⟩
  | svgTick y =>
    simp only [sysSvgTick]
    split
    · exact ⟨hp, hv⟩
    · rename_i h
      have hflag : y.st.isSvgSnapshotting = false := by
        cases hq : y.st.isSvgSnapshotting
        · rfl
        · exact absurd (by simp [hq]) h
      rw [hflag] at hv
      simp only [Bool.false_eq_true, if_false] at hv
      exact ⟨by simpa [SysInv] using hp, by simp [SysInv, hv]⟩
  | pageDone ok c y hpp =>
    have hflag : y.st.isSnapshotting = true := by
      by_contra h
      rw [Bool.not_eq_true] at h
      rw [h] at hp
      simp only [Bool.false_eq_true, if_false] at hp
      omega
    rw [hflag] at hp
    simp only [if_pos rfl] at hp
    cases ok with
    | true =>
      exact ⟨by simp [SysInv, pageCaptureSuccess_isSnap, hp],
             by simp [SysInv, pageCaptureSuccess_isSvg, hv]⟩
    | false =>
      exact ⟨by simp [SysInv, pageCaptureFailure_isSnap, hp],
             by simp [SysInv, pageCaptureFailure_isSvg, hv]⟩
  | svgDone ok c overSvg y hpv =>
    have hflag : y.st.isSvgSnapshotting = true := by
      by_contra h
      rw [Bool.not_eq_true] at h
      rw [h] at hv
      simp only [Bool.false_eq_true, if_false] at hv
      omega
    rw [hflag] at hv
    simp only [if_pos rfl] at hv
    cases ok with
    | true =>
      exact ⟨by simp [SysInv, svgCaptureSuccess_isSnap, hp],
             by simp [SysInv, svgCaptureSuccess_isSvg, hv]⟩
    | false =>
      exact ⟨by simp [SysInv, svgCaptureFailure_isSnap, hp],
             by simp [SysInv, svgCaptureFailure_isSvg, hv]⟩
  | createElem y =>
    exact ⟨by simpa [createMagnifierElement] using hp,
           by simpa [createMagnifierElement] using hv⟩
  | attach y =>
    exact ⟨by simpa [attachEventListeners] using hp,
           by simpa [attachEventListeners] using hv⟩
  | mouseDown x v svgExists loaded y =>
    exact ⟨by simpa [handleMouseDown_isSnap] using hp,
           by simpa [handleMouseDown_isSvg] using hv⟩
  | mouseMove x v svgExists loaded y =>
    exact ⟨by simpa [handleMouseMove_isSnap] using hp,
           by simpa [handleMouseMove_isSvg] using hv⟩
  | mouseUp y =>
    exact ⟨by simpa [handleMouseUp_isSnap] using hp,
           by simpa [handleMouseUp_isSvg] using hv⟩
  | mouseLeave y =>
    exact ⟨by simpa [handleMouseLeave_isSnap] using hp,
           by simpa [handleMouseLeave_isSvg] using hv⟩
  | touchStart touches y =>
    exact ⟨by simpa [handleTouchStart_isSnap] using hp,
           by simpa [handleTouchStart_isSvg] using hv⟩
  | touchMove touches svgExists loaded y =>
    exact ⟨by simpa [handleTouchMove_isSnap] using hp,
           by simpa [handleTouchMove_isSvg] using hv⟩
  | touchEnd y =>
    exact ⟨by simpa [handleTouchEnd_isSnap] using hp,
           by simpa [handleTouchEnd_isSvg] using hv⟩
  | resizeOrScroll y =>
    exact ⟨by simpa [handleResizeOrScroll_isSnap] using hp,
           by simpa [handleResizeOrScroll_isSvg] using hv⟩
  | draw e y =>
    exact ⟨by simpa [drawMagnifier_isSnap] using hp,
           by simpa [drawMagnifier_isSvg] using hv⟩
  | destroyStep y =>
    exact ⟨by simpa [destroy_isSnap] using hp,
           by simpa [destroy_isSvg] using hv⟩

lemma sysInv_reachable {o : Options} {y : Sys} (h : Reachable o y) : SysInv y := by
  induction h with
  | init => exact sysInv_init o
  | step _ hs ih => exact sysInv_step ih hs

/-! ### Helper lemmas -/

/-- The `Math.max(0, Math.min(p, L - ss))` clamp: origin in `[0, L - ss]`
when the source fits, and `0` when it does not. -/
lemma clamp_bounds (p L ss : ℚ) :
    (ss ≤ L → 0 ≤ max 0 (min p (L - ss)) ∧ max 0 (min p (L - ss)) + ss ≤ L) ∧
    (L < ss → max 0 (min p (L - ss)) = 0) := by
  constructor
  · intro h
    refine ⟨le_max_left _ _, ?_⟩
    have h1 : min p (L - ss) ≤ L - ss := min_le_right _ _
    have h2 : max 0 (min p (L - ss)) ≤ L - ss := max_le (by linarith) h1
    linarith
  · intro h
    apply max_eq_left
    have h1 : min p (L - ss) ≤ L - ss := min_le_right _ _
    linarith

lemma updatePosition_proj (x y : ℚ) (s : MagState) :
    (updatePosition x y s).activationMode = s.activationMode ∧
    (updatePosition x y s).isDragging = s.isDragging ∧
    (updatePosition x y s).snapshotInterval = s.snapshotInterval ∧
    (updatePosition x y s).svgSnapshotInterval = s.svgSnapshotInterval ∧
    (updatePosition x y s).activeTimers = s.activeTimers ∧
    (updatePosition x y s).nextTimerId = s.nextTimerId := by
  simp only [updatePosition]
  split <;> simp

lemma updatePosition_updates (x y : ℚ) (s : MagState)
    (h : s.activationMode = Mode.move ∨ s.isDragging = true) :
    (updatePosition x y s).lastMouseX = x ∧ (updatePosition x y s).lastMouseY = y := by
  simp only [updatePosition]
  have : (s.activationMode = Mode.move || s.isDragging) = true := by
    rcases h with h | h <;> simp [h]
  rw [if_pos this]
  exact ⟨rfl, rfl⟩

lemma updateMagnifierVisibility_proj (s : MagState) :
    (updateMagnifierVisibility s).activationMode = s.activationMode ∧
    (updateMagnifierVisibility s).isDragging = s.isDragging ∧
    (updateMagnifierVisibility s).snapshotInterval = s.snapshotInterval ∧
    (updateMagnifierVisibility s).svgSnapshotInterval = s.svgSnapshotInterval ∧
    (updateMagnifierVisibility s).activeTimers = s.activeTimers ∧
    (updateMagnifierVisibility s).nextTimerId = s.nextTimerId ∧
    (updateMagnifierVisibility s).lastMouseX = s.lastMouseX ∧
    (updateMagnifierVisibility s).lastMouseY = s.lastMouseY := by
  simp only [updateMagnifierVisibility]
  split <;> simp

lemma startPeriodicSnapshot_proj (s : MagState) :
    (startPeriodicSnapshot s).activationMode = s.activationMode ∧
    (startPeriodicSnapshot s).isDragging = s.isDragging ∧
    (startPeriodicSnapshot s).lastMouseX = s.lastMouseX ∧
    (startPeriodicSnapshot s).lastMouseY = s.lastMouseY ∧
    (startPeriodicSnapshot s).svgSnapshotInterval = s.svgSnapshotInterval ∧
    (startPeriodicSnapshot s).snapshotInterval.isSome = true := by
  simp only [startPeriodicSnapshot, clearTimer]
  split <;> simp

lemma startSvgSnapshot_proj (svgExists loaded : Bool) (s : MagState) :
    (startSvgSnapshot svgExists loaded s).activationMode = s.activationMode ∧
    (startSvgSnapshot svgExists loaded s).isDragging = s.isDragging ∧
    (startSvgSnapshot svgExists loaded s).lastMouseX = s.lastMouseX ∧
    (startSvgSnapshot svgExists loaded s).lastMouseY = s.lastMouseY ∧
    (startSvgSnapshot svgExists loaded s).snapshotInterval = s.snapshotInterval := by
  simp only [startSvgSnapshot, clearTimer]
  repeat' split
  all_goals simp

/-- The three-way dispatch of `drawMagnifier` once the surface exists. -/
lemma drawMagnifier_result (e : DrawEnv) (s : MagState)
    (h : (s.canvas && s.ctx) = true) :
    (drawMagnifier e s).1 =
      (match directPath e s (s.size / s.zoom) with
        | some r => r
        | none =>
          match regionPath e s (s.size / s.zoom) with
          | some r => r
          | none => pagePath e s (s.size / s.zoom)) := by
  simp only [drawMagnifier, h, if_true]

lemma directPath_none (e : DrawEnv) (s : MagState) (ss : ℚ)
    (h : (overElem e.dynamicCanvas s.lastMouseX s.lastMouseY &&
      e.canvasIsCanvasElement) = false) :
    directPath e s ss = none := by
  simp only [directPath]
  cases hc : e.dynamicCanvas with
  | none => rfl
  | some r =>
    rw [hc] at h
    simp only [h, Bool.false_eq_true, if_false, reduceIte]

lemma directPath_some (e : DrawEnv) (s : MagState) (ss : ℚ)
    (h : (overElem e.dynamicCanvas s.lastMouseX s.lastMouseY &&
      e.canvasIsCanvasElement) = true) :
    ∃ r, directPath e s ss = some r ∧
      resultSource r = some BlitSource.directCanvas := by
  simp only [directPath]
  cases hc : e.dynamicCanvas with
  | none => rw [hc] at h; simp [overElem] at h
  | some rect =>
    rw [hc] at h
    simp only [h, if_true, reduceIte]
    refine ⟨_, rfl, ?_⟩
    split <;> rfl

lemma regionPath_none (e : DrawEnv) (s : MagState) (ss : ℚ)
    (h : (overElem e.dynamicSvg s.lastMouseX s.lastMouseY &&
      s.svgSnapshotCanvas.isSome) = false) :
    regionPath e s ss = none := by
  simp only [regionPath]
  cases hv : e.dynamicSvg with
  | none => cases s.svgSnapshotCanvas <;> rfl
  | some rect =>
    cases hs : s.svgSnapshotCanvas with
    | none => rfl
    | some snap =>
      rw [hv, hs] at h
      simp only [Option.isSome_some, Bool.and_true] at h
      simp only [h, Bool.false_eq_true, if_false, reduceIte]

lemma regionPath_some (e : DrawEnv) (s : MagState) (ss : ℚ)
    (h : (overElem e.dynamicSvg s.lastMouseX s.lastMouseY &&
      s.svgSnapshotCanvas.isSome) = true) :
    ∃ r, regionPath e s ss = some r ∧
      resultSource r = some BlitSource.regionRaster := by
  simp only [regionPath]
  cases hv : e.dynamicSvg with
  | none => rw [hv] at h; simp [overElem] at h
  | some rect =>
    cases hs : s.svgSnapshotCanvas with
    | none => rw [hv, hs] at h; simp at h
    | some snap =>
      rw [hv, hs] at h
      simp only [Option.isSome_some, Bool.and_true] at h
      simp only [h, if_true, reduceIte]
      refine ⟨_, rfl, ?_⟩
      split <;> rfl

lemma pagePath_source (e : DrawEnv) (s : MagState) (ss : ℚ) :
    resultSource (pagePath e s ss) =
      (if s.snapshotCanvas.isSome then some BlitSource.pageRaster else none) := by
  simp only [pagePath]
  cases hs : s.snapshotCanvas with
  | none => rfl
  | some snap =>
    simp only [Option.isSome_some, if_true, reduceIte]
    split <;> rfl

lemma directPath_outcomes (e : DrawEnv) (s : MagState) (ss : ℚ) (r : DrawResult)
    (h : directPath e s ss = some r) :
    r = DrawResult.blitFailed BlitSource.directCanvas false ∨
    ∃ sx sy side, r = DrawResult.blit BlitSource.directCanvas sx sy side := by
  simp only [directPath] at h
  cases hc : e.dynamicCanvas with
  | none => simp only [hc] at h; cases h
  | some rect =>
    simp only [hc] at h
    by_cases hb : (overElem (some rect) s.lastMouseX s.lastMouseY &&
        e.canvasIsCanvasElement) = true
    · rw [if_pos hb] at h
      rcases Option.some_injective _ h with rfl
      split
      · left; rfl
      · right; exact ⟨_, _, _, rfl⟩
    · rw [if_neg hb] at h
      exact absurd h (by simp)

lemma regionPath_outcomes (e : DrawEnv) (s : MagState) (ss : ℚ) (r : DrawResult)
    (h : regionPath e s ss = some r) :
    r = DrawResult.blitFailed BlitSource.regionRaster false ∨
    ∃ sx sy side, r = DrawResult.blit BlitSource.regionRaster sx sy side := by
  simp only [regionPath] at h
  cases hv : e.dynamicSvg with
  | none =>
    simp only [hv] at h
    cases s.svgSnapshotCanvas <;> simp at h
  | some rect =>
    cases hs : s.svgSnapshotCanvas with
    | none => simp only [hv, hs] at h; cases h
    | some snap =>
      simp only [hv, hs] at h
      by_cases hb : overElem (some rect) s.lastMouseX s.lastMouseY = true
      · rw [if_pos hb] at h
        rcases Option.some_injective _ h with rfl
        split
        · left; rfl
        · right; exact ⟨_, _, _, rfl⟩
      · rw [if_neg hb] at h
        exact absurd h (by simp)

lemma pagePath_outcomes (e : DrawEnv) (s : MagState) (ss : ℚ) :
    pagePath e s ss = DrawResult.loading ∨
    pagePath e s ss = DrawResult.blitFailed BlitSource.pageRaster true ∨
    ∃ sx sy side, pagePath e s ss = DrawResult.blit BlitSource.pageRaster sx sy side := by
  rcases hs : s.snapshotCanvas with _ | snap
  · left; simp [pagePath, hs]
  · simp only [pagePath, hs]
    right
    split
    · left; rfl
    · right; exact ⟨_, _, _, rfl⟩

/-- The drawn result only depends on the fields `drawMagnifier` reads. -/
lemma drawMagnifier_fst_congr (e : DrawEnv) (s t : MagState)
    (h1 : s.canvas = t.canvas) (h2 : s.ctx = t.ctx) (h3 : s.size = t.size)
    (h4 : s.zoom = t.zoom) (h5 : s.lastMouseX = t.lastMouseX)
    (h6 : s.lastMouseY = t.lastMouseY)
    (h7 : s.svgSnapshotCanvas = t.svgSnapshotCanvas)
    (h8 : s.snapshotCanvas = t.snapshotCanvas) :
    (drawMagnifier e s).1 = (drawMagnifier e t).1 := by
  simp only [drawMagnifier, directPath, regionPath, pagePath, overElem,
             h1, h2, h3, h4, h5, h6, h7, h8]
  split <;> rfl

/-! ### Claims -/

/-- C1: Clamp correctness of all three coordinate mappings: for every
configuration with `size > 0` and `zoom > 0` and every pointer position,
the source rectangle computed by the direct-element, region-raster and
page-raster paths has side `size/zoom` (for the region path: side
`size/zoom` scaled by the raster/element ratio in raster pixels, i.e.
exactly `size/zoom` element pixels), and its origin on each axis lies in
`[0, sourceDimension − sourceSize]`, or is `0` when the source dimension
is smaller than the source size. -/
theorem sourceRect_clamp_correct
    (size zoom mouseX mouseY scrollX scrollY docW docH snapW snapH rsW rsH : ℚ)
    (r : Rect) (hsize : 0 < size) (hzoom : 0 < zoom) (hrw : r.width ≠ 0) :
    let ss := size / zoom
    let d := directSourceRect mouseX mouseY r ss
    let g := regionSourceRect mouseX mouseY r rsW rsH ss
    let p := pageSourceRect scrollX scrollY mouseX mouseY docW docH snapW snapH ss
    (d.2.2 = ss ∧
     (ss ≤ r.width → 0 ≤ d.1 ∧ d.1 + ss ≤ r.width) ∧
     (r.width < ss → d.1 = 0) ∧
     (ss ≤ r.height → 0 ≤ d.2.1 ∧ d.2.1 + ss ≤ r.height) ∧
     (r.height < ss → d.2.1 = 0)) ∧
    (g.2.2 = ss * (rsW / r.width) ∧
     g.2.2 * r.width = ss * rsW ∧
     (g.2.2 ≤ rsW → 0 ≤ g.1 ∧ g.1 + g.2.2 ≤ rsW) ∧
     (rsW < g.2.2 → g.1 = 0) ∧
     (g.2.2 ≤ rsH → 0 ≤ g.2.1 ∧ g.2.1 + g.2.2 ≤ rsH) ∧
     (rsH < g.2.2 → g.2.1 = 0)) ∧
    (p.2.2 = ss ∧
     (ss ≤ snapW → 0 ≤ p.1 ∧ p.1 + ss ≤ snapW) ∧
     (snapW < ss → p.1 = 0) ∧
     (ss ≤ snapH → 0 ≤ p.2.1 ∧ p.2.1 + ss ≤ snapH) ∧
     (snapH < ss → p.2.1 = 0)) := by
  dsimp only
  simp only [directSourceRect, regionSourceRect, pageSourceRect]
  refine ⟨⟨trivial, (clamp_bounds _ _ _).1, (clamp_bounds _ _ _).2,
           (clamp_bounds _ _ _).1, (clamp_bounds _ _ _).2⟩,
          ⟨trivial, ?_, (clamp_bounds _ _ _).1, (clamp_bounds _ _ _).2,
           (clamp_bounds _ _ _).1, (clamp_bounds _ _ _).2⟩,
          ⟨trivial, (clamp_bounds _ _ _).1, (clamp_bounds _ _ _).2,
           (clamp_bounds _ _ _).1, (clamp_bounds _ _ _).2⟩⟩
  rw [mul_assoc, div_mul_cancel₀ _ hrw]

/-- Witness for C1 at the spec's end-to-end scenario: `size 200`, `zoom 2`,
pointer `(100,100)`, an `800×600` element/raster. -/
theorem sourceRect_clamp_correct_witness :
    (0 : ℚ) < 200 ∧ (0 : ℚ) < 2 ∧ ((⟨0, 0, 800, 600⟩ : Rect)).width ≠ 0 ∧
    ((200 : ℚ) / 2 ≤ ((⟨0, 0, 800, 600⟩ : Rect)).width ∧
     (0 ≤ (directSourceRect 100 100 ⟨0, 0, 800, 600⟩ (200 / 2)).1 ∧
      (directSourceRect 100 100 ⟨0, 0, 800, 600⟩ (200 / 2)).1 + 200 / 2 ≤
        ((⟨0, 0, 800, 600⟩ : Rect)).width)) :=
  ⟨by decide, by decide, by decide, by norm_num,
   (sourceRect_clamp_correct 200 2 100 100 0 0 800 600 800 600 400 300
      ⟨0, 0, 800, 600⟩ (by decide) (by decide) (by decide)).1.2.1 (by norm_num)⟩

/-- C2: Single-flight capture invariant: in every reachable system state
at most one page capture and at most one region capture is in flight;
`takeSnapshot` while `isSnapshotting` (and the region-interval body while
`isSvgSnapshotting`) is a no-op that neither resets nor duplicates the
pending capture; and both the success and the failure completion of every
capture clear the corresponding in-flight flag. -/
theorem single_flight_capture (o : Options) (y : Sys) (h : Reachable o y) :
    y.pendingPage ≤ 1 ∧ y.pendingSvg ≤ 1 ∧
    (y.st.isSnapshotting = true → ∀ loaded, sysTakeSnapshot loaded y = y) ∧
    (y.st.isSvgSnapshotting = true → sysSvgTick y = y) ∧
    (∀ c, (pageCaptureSuccess c y.st).isSnapshotting = false) ∧
    (pageCaptureFailure y.st).isSnapshotting = false ∧
    (∀ c ov, (svgCaptureSuccess c ov y.st).isSvgSnapshotting = false) ∧
    (svgCaptureFailure y.st).isSvgSnapshotting = false := by
  obtain ⟨hp, hv⟩ := sysInv_reachable h
  refine ⟨?_, ?_, ?_, ?_, ?_, ?_, ?_, ?_⟩
  · rw [hp]; split <;> omega
  · rw [hv]; split <;> omega
  · intro hf loaded; simp [sysTakeSnapshot, hf]
  · intro hf; simp [sysSvgTick, hf]
  · exact fun c => pageCaptureSuccess_isSnap c y.st
  · exact pageCaptureFailure_isSnap y.st
  · exact fun c ov => svgCaptureSuccess_isSvg c ov y.st
  · exact svgCaptureFailure_isSvg y.st

/-- Witness for C2 at the freshly constructed system. -/
theorem single_flight_capture_witness :
    (initSys defaultOpts).pendingPage ≤ 1 ∧ (initSys defaultOpts).pendingSvg ≤ 1 :=
  ⟨(single_flight_capture defaultOpts _ Reachable.init).1,
   (single_flight_capture defaultOpts _ Reachable.init).2.1⟩

/-- C3: Capture-failure atomicity: the failure completion of a page
capture leaves the cached page raster unchanged, clears the in-flight
flag, and the per-frame draw produces the same result before and after
the failure. -/
theorem pageCaptureFailure_atomic (s : MagState) (e : DrawEnv) :
    (pageCaptureFailure s).snapshotCanvas = s.snapshotCanvas ∧
    (pageCaptureFailure s).isSnapshotting = false ∧
    (drawMagnifier e (pageCaptureFailure s)).1 = (drawMagnifier e s).1 :=
  ⟨rfl, rfl, drawMagnifier_fst_congr e _ s rfl rfl rfl rfl rfl rfl rfl rfl⟩

/-- C4 counterexample: with the pointer over a genuine dynamic canvas
whose blit throws, the exception is caught but the surface shows no error
placeholder (`blitFailed … false`) — only the page-raster path paints
one, so the claim "replaced with an error placeholder" fails for the
direct-canvas (and likewise the region) path. -/
theorem blit_no_placeholder_counterexample :
    (drawMagnifier
      ⟨some ⟨0, 0, 100, 100⟩, true, none, 800, 600, 0, 0, true, false, false⟩
      { createMagnifierElement (mkMagnifier defaultOpts) with
        lastMouseX := 50, lastMouseY := 50 }).1
      = DrawResult.blitFailed BlitSource.directCanvas false := by
  norm_num [drawMagnifier, directPath, overElem, mkMagnifier,
            createMagnifierElement, defaultOpts, jsOrNum, Rect.right, Rect.bottom]

/-- C4 (amended): every blit exception, on all three draw paths, is
caught inside `drawMagnifier` and never propagates (no `propagated`
outcome exists); the caught exception is replaced by an error placeholder
exactly on the page-raster path, while the direct-canvas and region paths
only log and leave the neutral background. -/
theorem blit_exceptions_caught (e : DrawEnv) (s : MagState) :
    (∀ src : BlitSource, (drawMagnifier e s).1 ≠ DrawResult.propagated src) ∧
    (∀ (src : BlitSource) (pl : Bool),
      (drawMagnifier e s).1 = DrawResult.blitFailed src pl →
        (pl = true ↔ src = BlitSource.pageRaster)) := by
  by_cases hc : (s.canvas && s.ctx) = true
  · have heq := drawMagnifier_result e s hc
    rcases hd : directPath e s (s.size / s.zoom) with _ | r
    · rcases hg : regionPath e s (s.size / s.zoom) with _ | r
      · rw [hd, hg] at heq
        rcases pagePath_outcomes e s (s.size / s.zoom) with hp | hp | ⟨sx, sy, side, hp⟩ <;>
          rw [hp] at heq
        · exact ⟨fun src => by rw [heq]; simp,
                 fun src pl h => by rw [heq] at h; exact absurd h (by simp)⟩
        · refine ⟨fun src => by rw [heq]; simp, fun src pl h => ?_⟩
          rw [heq] at h
          injection h with h1 h2
          subst h1; subst h2
          simp
        · exact ⟨fun src => by rw [heq]; simp,
                 fun src pl h => by rw [heq] at h; exact absurd h (by simp)⟩
      · rw [hd, hg] at heq
        rcases regionPath_outcomes e s (s.size / s.zoom) r hg with hr | ⟨sx, sy, side, hr⟩ <;>
          rw [hr] at heq
        · refine ⟨fun src => by rw [heq]; simp, fun src pl h => ?_⟩
          rw [heq] at h
          injection h with h1 h2
          subst h1; subst h2
          simp
        · exact ⟨fun src => by rw [heq]; simp,
                 fun src pl h => by rw [heq] at h; exact absurd h (by simp)⟩
    · rw [hd] at heq
      rcases directPath_outcomes e s (s.size / s.zoom) r hd with hr | ⟨sx, sy, side, hr⟩ <;>
        rw [hr] at heq
      · refine ⟨fun src => by rw [heq]; simp, fun src pl h => ?_⟩
        rw [heq] at h
        injection h with h1 h2
        subst h1; subst h2
        simp
      · exact ⟨fun src => by rw [heq]; simp,
               fun src pl h => by rw [heq] at h; exact absurd h (by simp)⟩
  · have heq : (drawMagnifier e s).1 = DrawResult.skipped := by
      simp [drawMagnifier, hc]
    exact ⟨fun src => by rw [heq]; simp,
           fun src pl h => by rw [heq] at h; exact absurd h (by simp)⟩

/-- Witness for C4 at a failing page-raster blit: the exception is caught
and the error placeholder is painted (the `iff` holds with both sides
true). -/
theorem blit_exceptions_caught_witness :
    (drawMagnifier ⟨none, false, none, 800, 600, 0, 0, false, false, true⟩
      { createMagnifierElement (mkMagnifier defaultOpts) with
        snapshotCanvas := some ⟨800, 600⟩ }).1
      = DrawResult.blitFailed BlitSource.pageRaster true ∧
    (true = true ↔ BlitSource.pageRaster = BlitSource.pageRaster) :=
  ⟨by norm_num [drawMagnifier, directPath, regionPath, pagePath, overElem,
      mkMagnifier, createMagnifierElement, defaultOpts, jsOrNum],
   (blit_exceptions_caught
      ⟨none, false, none, 800, 600, 0, 0, false, false, true⟩
      { createMagnifierElement (mkMagnifier defaultOpts) with
        snapshotCanvas := some ⟨800, 600⟩ }).2 _ _
     (by norm_num [drawMagnifier, directPath, regionPath, pagePath, overElem,
         mkMagnifier, createMagnifierElement, defaultOpts, jsOrNum])⟩

lemma stopPeriodicSnapshot_props (s : MagState) :
    (stopPeriodicSnapshot s).snapshotInterval = none ∧
    (stopPeriodicSnapshot s).svgSnapshotInterval = none ∧
    (∀ h, s.snapshotInterval = some h → h ∉ (stopPeriodicSnapshot s).activeTimers) ∧
    (∀ h, s.svgSnapshotInterval = some h → h ∉ (stopPeriodicSnapshot s).activeTimers) ∧
    (stopPeriodicSnapshot s).snapshotTimer = s.snapshotTimer ∧
    (stopPeriodicSnapshot s).listenersAttached = s.listenersAttached ∧
    (stopPeriodicSnapshot s).magnifierElement = s.magnifierElement ∧
    (stopPeriodicSnapshot s).magnifierAttached = s.magnifierAttached := by
  simp only [stopPeriodicSnapshot, clearTimer]
  rcases hsi : s.snapshotInterval with _ | h1 <;>
    simp only [hsi] <;>
    rcases hsv : s.svgSnapshotInterval with _ | h2 <;>
      simp only [hsv] <;>
      simp [List.mem_filter, hsi, hsv]

lemma destroy_later_fields (s : MagState) :
    (destroy s).activeTimers = (stopPeriodicSnapshot s).activeTimers ∧
    (destroy s).snapshotTimer = (stopPeriodicSnapshot s).snapshotTimer ∧
    (destroy s).snapshotInterval = (stopPeriodicSnapshot s).snapshotInterval ∧
    (destroy s).svgSnapshotInterval = (stopPeriodicSnapshot s).svgSnapshotInterval ∧
    (destroy s).listenersAttached = false ∧
    (destroy s).magnifierElement = false ∧
    (destroy s).canvas = false ∧
    (destroy s).ctx = false ∧
    (destroy s).snapshotCanvas = none ∧
    (destroy s).svgSnapshotCanvas = none := by
  simp only [destroy, removeEventListeners]
  split <;> simp

/-- C5 counterexample: `destroy` after a resize/scroll leaves the pending
debounce timeout armed — `snapshotTimer` still holds the live handle `0`,
which is still in the set of active host timers, contradicting "cancels
all timers … and any pending resize/scroll debounce timer". -/
theorem destroy_debounce_counterexample :
    (destroy (handleResizeOrScroll (mkMagnifier defaultOpts))).snapshotTimer = some 0 ∧
    0 ∈ (destroy (handleResizeOrScroll (mkMagnifier defaultOpts))).activeTimers := by
  norm_num [destroy, handleResizeOrScroll, mkMagnifier, defaultOpts, jsOrNum,
            stopPeriodicSnapshot, removeEventListeners, clearTimer]

/-- C5 (amended): a single `destroy` cancels both periodic capture
intervals (their handles leave the live timer set), detaches the input
listeners, removes the overlay element from the page (when the element
exists), and drops the element, canvas, context and both raster
references, after which `drawMagnifier` is a no-op — but it does NOT
cancel a pending resize/scroll debounce timer (`snapshotTimer` is left
untouched). -/
theorem destroy_teardown (s : MagState) :
    (destroy s).snapshotInterval = none ∧
    (destroy s).svgSnapshotInterval = none ∧
    (∀ h, s.snapshotInterval = some h → h ∉ (destroy s).activeTimers) ∧
    (∀ h, s.svgSnapshotInterval = some h → h ∉ (destroy s).activeTimers) ∧
    (destroy s).listenersAttached = false ∧
    (s.magnifierElement = true → (destroy s).magnifierAttached = false) ∧
    (destroy s).magnifierElement = false ∧
    (destroy s).canvas = false ∧
    (destroy s).ctx = false ∧
    (destroy s).snapshotCanvas = none ∧
    (destroy s).svgSnapshotCanvas = none ∧
    (∀ e, drawMagnifier e (destroy s) = (DrawResult.skipped, destroy s)) ∧
    (destroy s).snapshotTimer = s.snapshotTimer := by
  obtain ⟨p1, p2, p3, p4, p5, p6, p7, p8⟩ := stopPeriodicSnapshot_props s
  obtain ⟨q1, q2, q3, q4, q5, q6, q7, q8, q9, q10⟩ := destroy_later_fields s
  refine ⟨q3.trans p1, q4.trans p2,
          fun h hh => by rw [q1]; exact p3 h hh,
          fun h hh => by rw [q1]; exact p4 h hh,
          q5, ?_, q6, q7, q8, q9, q10, ?_, q2.trans p5⟩
  · intro hm
    simp only [destroy, removeEventListeners]
    split
    · simp
    · rename_i hcond
      have h1 : (stopPeriodicSnapshot s).magnifierElement = true := p7.trans hm
      have h2 : (stopPeriodicSnapshot s).magnifierAttached = false := by
        cases hq : (stopPeriodicSnapshot s).magnifierAttached
        · rfl
        · exact absurd ⟨by simpa using h1, by simpa using hq⟩ hcond
      simpa using h2
  · intro e
    have hcv : (destroy s).canvas = false := q7
    simp [drawMagnifier, hcv]

/-- `mathAbs` agrees with the absolute value. -/
lemma mathAbs_eq_abs (q : ℚ) : mathAbs q = |q| := by
  simp only [mathAbs]
  split
  · rename_i h
    exact (abs_of_neg h).symm
  · rename_i h
    exact (abs_of_nonneg (le_of_not_lt h)).symm

/-- C6 counterexample: touch-start at `(0,0)`, a move to `(10,0)`
activates dragging; the next move to `(13,3)` is within 5 px of the
stored position on both axes, and — contrary to "from then on moves
update the stored position normally" — the stored position stays
`(10,0)` while dragging is active. -/
theorem touch_active_small_move_counterexample :
    (handleTouchMove [(13, 3)] true true
      (handleTouchMove [(10, 0)] true true
        (handleTouchStart [(0, 0)] (mkMagnifier defaultOpts)))).isDragging = true ∧
    (handleTouchMove [(13, 3)] true true
      (handleTouchMove [(10, 0)] true true
        (handleTouchStart [(0, 0)] (mkMagnifier defaultOpts)))).lastMouseX = 10 ∧
    (handleTouchMove [(13, 3)] true true
      (handleTouchMove [(10, 0)] true true
        (handleTouchStart [(0, 0)] (mkMagnifier defaultOpts)))).lastMouseY = 0 := by
  norm_num [handleTouchMove, handleTouchStart, mkMagnifier, defaultOpts, jsOrNum,
            mathAbs, startPeriodicSnapshot, startSvgSnapshot,
            updateMagnifierVisibility, updatePosition, clearTimer]

/-- C6 (amended): after a touch-start, every touch-move within 5 px of
the stored point on both axes is a complete no-op, so the state stays
idle under any such sequence; the first move exceeding 5 px on either
axis activates dragging exactly once, starts the periodic capture, and
records the position — but once active, a later move updates the stored
position only when it again exceeds 5 px on some axis from the currently
stored position; smaller moves are ignored entirely (they do not update
the position, contrary to the original claim). -/
theorem touch_threshold (s : MagState) (x y : ℚ) (svgExists loaded : Bool)
    (moves : List (ℚ × ℚ)) :
    (s.isDragging = false →
      (∀ m ∈ moves, mathAbs (m.1 - s.lastMouseX) ≤ 5 ∧ mathAbs (m.2 - s.lastMouseY) ≤ 5) →
      moves.foldl (fun st m => handleTouchMove [m] svgExists loaded st) s = s) ∧
    (s.isDragging = false →
      (mathAbs (x - s.lastMouseX) > 5 ∨ mathAbs (y - s.lastMouseY) > 5) →
      (handleTouchMove [(x, y)] svgExists loaded s).isDragging = true ∧
      (handleTouchMove [(x, y)] svgExists loaded s).snapshotInterval.isSome = true ∧
      (handleTouchMove [(x, y)] svgExists loaded s).lastMouseX = x ∧
      (handleTouchMove [(x, y)] svgExists loaded s).lastMouseY = y) ∧
    (s.isDragging = true →
      mathAbs (x - s.lastMouseX) ≤ 5 → mathAbs (y - s.lastMouseY) ≤ 5 →
      handleTouchMove [(x, y)] svgExists loaded s = s) ∧
    (s.isDragging = true →
      (mathAbs (x - s.lastMouseX) > 5 ∨ mathAbs (y - s.lastMouseY) > 5) →
      (handleTouchMove [(x, y)] svgExists loaded s).lastMouseX = x ∧
      (handleTouchMove [(x, y)] svgExists loaded s).lastMouseY = y ∧
      (handleTouchMove [(x, y)] svgExists loaded s).isDragging = true ∧
      (handleTouchMove [(x, y)] svgExists loaded s).snapshotInterval = s.snapshotInterval ∧
      (handleTouchMove [(x, y)] svgExists loaded s).svgSnapshotInterval = s.svgSnapshotInterval ∧
      (handleTouchMove [(x, y)] svgExists loaded s).activeTimers = s.activeTimers ∧
      (handleTouchMove [(x, y)] svgExists loaded s).nextTimerId = s.nextTimerId) := by
  have hsmall : ∀ (t : MagState) (m : ℚ × ℚ),
      mathAbs (m.1 - t.lastMouseX) ≤ 5 → mathAbs (m.2 - t.lastMouseY) ≤ 5 →
      handleTouchMove [m] svgExists loaded t = t := by
    intro t m h1 h2
    have hcond : ¬(mathAbs (m.1 - t.lastMouseX) > 5 ∨
        mathAbs (m.2 - t.lastMouseY) > 5) := by
      push_neg
      exact ⟨h1, h2⟩
    simp only [handleTouchMove]
    rw [if_neg hcond]
  refine ⟨?_, ?_, ?_, ?_⟩
  · intro hd hm
    induction moves with
    | nil => rfl
    | cons m rest ih =>
      have hm1 := hm m (List.mem_cons_self m rest)
      have hstep : handleTouchMove [m] svgExists loaded s = s :=
        hsmall s m hm1.1 hm1.2
      simp only [List.foldl_cons, hstep]
      exact ih fun m' hm' => hm m' (List.mem_cons_of_mem m hm')
  · intro hd hth
    simp only [handleTouchMove]
    rw [if_pos hth, if_neg (by simp [hd])]
    have hdrag : (startSvgSnapshot svgExists loaded
        (startPeriodicSnapshot
          (updateMagnifierVisibility { s with isDragging := true }))).isDragging = true := by
      rw [(startSvgSnapshot_proj _ _ _).2.1, (startPeriodicSnapshot_proj _).2.1,
          (updateMagnifierVisibility_proj _).2.1]
    refine ⟨?_, ?_, ?_, ?_⟩
    · rw [(updatePosition_proj _ _ _).2.1]; exact hdrag
    · rw [(updatePosition_proj _ _ _).2.2.1,
          (startSvgSnapshot_proj _ _ _).2.2.2.2,
          (startPeriodicSnapshot_proj _).2.2.2.2.2]
    · exact (updatePosition_updates _ _ _ (Or.inr hdrag)).1
    · exact (updatePosition_updates _ _ _ (Or.inr hdrag)).2
  · intro hd h1 h2
    exact hsmall s (x, y) h1 h2
  · intro hd hth
    simp only [handleTouchMove]
    rw [if_pos hth, if_pos hd]
    refine ⟨(updatePosition_updates _ _ _ (Or.inr hd)).1,
            (updatePosition_updates _ _ _ (Or.inr hd)).2,
            ?_, ?_, ?_, ?_, ?_⟩
    · rw [(updatePosition_proj _ _ _).2.1]; exact hd
    · exact (updatePosition_proj _ _ _).2.2.1
    · exact (updatePosition_proj _ _ _).2.2.2.1
    · exact (updatePosition_proj _ _ _).2.2.2.2.1
    · exact (updatePosition_proj _ _ _).2.2.2.2.2

/-- Witness for C6: the activating move `(10,0)` from `(0,0)` in a fresh
drag-mode instance, and a sub-threshold sequence `[(3,3)]` that is a
no-op. -/
theorem touch_threshold_witness :
    ([((3 : ℚ), (3 : ℚ))].foldl
        (fun st m => handleTouchMove [m] true true st) (mkMagnifier defaultOpts)
      = mkMagnifier defaultOpts) ∧
    (handleTouchMove [(10, 0)] true true (mkMagnifier defaultOpts)).isDragging = true ∧
    (handleTouchMove [(10, 0)] true true (mkMagnifier defaultOpts)).snapshotInterval.isSome = true ∧
    (handleTouchMove [(10, 0)] true true (mkMagnifier defaultOpts)).lastMouseX = 10 ∧
    (handleTouchMove [(10, 0)] true true (mkMagnifier defaultOpts)).lastMouseY = 0 :=
  ⟨(touch_threshold (mkMagnifier defaultOpts) 0 0 true true [(3, 3)]).1 rfl
      (by norm_num [mkMagnifier, defaultOpts, jsOrNum, mathAbs]),
   (touch_threshold (mkMagnifier defaultOpts) 10 0 true true []).2.1 rfl
      (Or.inl (by norm_num [mkMagnifier, defaultOpts, jsOrNum, mathAbs]))⟩

/-- Witness for C5: destroying an instance whose overlay exists and whose
periodic capture is running clears the interval handle from the live
timers and detaches the overlay. -/
theorem destroy_teardown_witness :
    (startPeriodicSnapshot (createMagnifierElement (mkMagnifier defaultOpts))).snapshotInterval
      = some 0 ∧
    0 ∉ (destroy (startPeriodicSnapshot
      (createMagnifierElement (mkMagnifier defaultOpts)))).activeTimers ∧
    (startPeriodicSnapshot (createMagnifierElement (mkMagnifier defaultOpts))).magnifierElement
      = true ∧
    (destroy (startPeriodicSnapshot
      (createMagnifierElement (mkMagnifier defaultOpts)))).magnifierAttached = false :=
  ⟨rfl,
   (destroy_teardown _).2.2.1 0 rfl,
   rfl,
   (destroy_teardown _).2.2.2.2.2.1 rfl⟩

/-- C7: per-frame source dispatch order: the direct canvas wins when the
pointer is over the dynamic canvas and it is a genuine canvas element;
else the region raster when over the dynamic SVG and a region raster
exists; else the page raster when one exists; else the loading
placeholder — and an absent dynamic element simply never passes the hit
test. -/
theorem draw_source_dispatch (e : DrawEnv) (s : MagState)
    (hc : s.canvas = true) (hx : s.ctx = true) :
    resultSource (drawMagnifier e s).1 =
      (if overElem e.dynamicCanvas s.lastMouseX s.lastMouseY &&
          e.canvasIsCanvasElement then some BlitSource.directCanvas
       else if overElem e.dynamicSvg s.lastMouseX s.lastMouseY &&
          s.svgSnapshotCanvas.isSome then some BlitSource.regionRaster
       else if s.snapshotCanvas.isSome then some BlitSource.pageRaster
       else none) ∧
    overElem none s.lastMouseX s.lastMouseY = false := by
  refine ⟨?_, rfl⟩
  have hcc : (s.canvas && s.ctx) = true := by simp [hc, hx]
  rw [drawMagnifier_result e s hcc]
  by_cases h1 : (overElem e.dynamicCanvas s.lastMouseX s.lastMouseY &&
      e.canvasIsCanvasElement) = true
  · obtain ⟨r, hr, hrs⟩ := directPath_some e s (s.size / s.zoom) h1
    simp only [hr, h1, if_true, reduceIte]
    exact hrs
  · have h1' : (overElem e.dynamicCanvas s.lastMouseX s.lastMouseY &&
        e.canvasIsCanvasElement) = false := by simpa using h1
    rw [directPath_none e s (s.size / s.zoom) h1']
    simp only [h1', Bool.false_eq_true, if_false, reduceIte]
    by_cases h2 : (overElem e.dynamicSvg s.lastMouseX s.lastMouseY &&
        s.svgSnapshotCanvas.isSome) = true
    · obtain ⟨r, hr, hrs⟩ := regionPath_some e s (s.size / s.zoom) h2
      simp only [hr, h2, if_true, reduceIte]
      exact hrs
    · have h2' : (overElem e.dynamicSvg s.lastMouseX s.lastMouseY &&
          s.svgSnapshotCanvas.isSome) = false := by simpa using h2
      rw [regionPath_none e s (s.size / s.zoom) h2']
      simp only [h2', Bool.false_eq_true, if_false, reduceIte]
      rw [pagePath_source]

/-- Witness for C7 with an empty page and no dynamic elements. -/
theorem draw_source_dispatch_witness :
    overElem none (createMagnifierElement (mkMagnifier defaultOpts)).lastMouseX
      (createMagnifierElement (mkMagnifier defaultOpts)).lastMouseY = false :=
  (draw_source_dispatch ⟨none, false, none, 800, 600, 0, 0, false, false, false⟩
    (createMagnifierElement (mkMagnifier defaultOpts)) rfl rfl).2

/-- C8: mode-switch idempotence in move mode: the first pointer move
leaves a main interval armed, and a second consecutive move changes
neither the interval handles, nor the set of live timers, nor the handle
counter — periodic capture starts at most once and is never reset. -/
theorem moveMode_periodic_idempotent (s : MagState) (x1 y1 x2 y2 : ℚ)
    (svg1 load1 svg2 load2 : Bool) (hm : s.activationMode = Mode.move) :
    (handleMouseMove x1 y1 svg1 load1 s).snapshotInterval.isSome = true ∧
    (handleMouseMove x2 y2 svg2 load2 (handleMouseMove x1 y1 svg1 load1 s)).snapshotInterval
      = (handleMouseMove x1 y1 svg1 load1 s).snapshotInterval ∧
    (handleMouseMove x2 y2 svg2 load2 (handleMouseMove x1 y1 svg1 load1 s)).svgSnapshotInterval
      = (handleMouseMove x1 y1 svg1 load1 s).svgSnapshotInterval ∧
    (handleMouseMove x2 y2 svg2 load2 (handleMouseMove x1 y1 svg1 load1 s)).activeTimers
      = (handleMouseMove x1 y1 svg1 load1 s).activeTimers ∧
    (handleMouseMove x2 y2 svg2 load2 (handleMouseMove x1 y1 svg1 load1 s)).nextTimerId
      = (handleMouseMove x1 y1 svg1 load1 s).nextTimerId := by
  have hA : ∀ (x y : ℚ) (sv ld : Bool) (t : MagState), t.activationMode = Mode.move →
      (handleMouseMove x y sv ld t).snapshotInterval.isSome = true ∧
      (handleMouseMove x y sv ld t).activationMode = Mode.move := by
    intro x y sv ld t htm
    obtain ⟨u1, u2, u3, u4, u5, u6⟩ := updatePosition_proj x y t
    obtain ⟨v1, v2, v3, v4, v5, v6, v7, v8⟩ :=
      updateMagnifierVisibility_proj (updatePosition x y t)
    simp only [handleMouseMove]
    rw [if_pos htm]
    by_cases h2 : (updateMagnifierVisibility (updatePosition x y t)).snapshotInterval = none
    · rw [if_pos h2]
      obtain ⟨p1, p2, p3, p4, p5, p6⟩ :=
        startPeriodicSnapshot_proj (updateMagnifierVisibility (updatePosition x y t))
      obtain ⟨q1, q2, q3, q4, q5⟩ := startSvgSnapshot_proj sv ld
        (startPeriodicSnapshot (updateMagnifierVisibility (updatePosition x y t)))
      refine ⟨by rw [q5]; exact p6, by rw [q1, p1, v1, u1]; exact htm⟩
    · rw [if_neg h2]
      constructor
      · rcases ho : (updateMagnifierVisibility (updatePosition x y t)).snapshotInterval
          with _ | hh
        · exact absurd ho h2
        · simp [ho]
      · rw [v1, u1]; exact htm
  have hB : ∀ (x y : ℚ) (sv ld : Bool) (t : MagState), t.activationMode = Mode.move →
      t.snapshotInterval.isSome = true →
      (handleMouseMove x y sv ld t).snapshotInterval = t.snapshotInterval ∧
      (handleMouseMove x y sv ld t).svgSnapshotInterval = t.svgSnapshotInterval ∧
      (handleMouseMove x y sv ld t).activeTimers = t.activeTimers ∧
      (handleMouseMove x y sv ld t).nextTimerId = t.nextTimerId := by
    intro x y sv ld t htm hsome
    obtain ⟨u1, u2, u3, u4, u5, u6⟩ := updatePosition_proj x y t
    obtain ⟨v1, v2, v3, v4, v5, v6, v7, v8⟩ :=
      updateMagnifierVisibility_proj (updatePosition x y t)
    simp only [handleMouseMove]
    rw [if_pos htm]
    have h2 : ¬ (updateMagnifierVisibility (updatePosition x y t)).snapshotInterval = none := by
      rw [v3, u3]
      intro hnone
      rw [hnone] at hsome
      simp at hsome
    rw [if_neg h2]
    exact ⟨by rw [v3, u3], by rw [v4, u4], by rw [v5, u5], by rw [v6, u6]⟩
  obtain ⟨hsome1, hmode1⟩ := hA x1 y1 svg1 load1 s hm
  obtain ⟨b1, b2, b3, b4⟩ := hB x2 y2 svg2 load2 _ hmode1 hsome1
  exact ⟨hsome1, b1, b2, b3, b4⟩

/-- Witness for C8 on a fresh move-mode instance. -/
theorem moveMode_periodic_idempotent_witness :
    (handleMouseMove 1 2 true true
      (mkMagnifier ⟨none, none, none, some Mode.move, none⟩)).snapshotInterval.isSome = true :=
  (moveMode_periodic_idempotent (mkMagnifier ⟨none, none, none, some Mode.move, none⟩)
    1 2 3 4 true true true true rfl).1

/-- C9 counterexample: supplying `updateFrequency` partially (only the
main interval) leaves the other sub-fields absent — `RESIZE_DEBOUNCE`
does not take its documented default `150` (nor `SVG_SNAPSHOT` its `16`),
because the constructor replaces the whole object instead of merging
field by field. -/
theorem updateFrequency_partial_counterexample :
    (mkMagnifier ⟨none, none, none, none, some ⟨some 32, none, none⟩⟩).ufResize = none ∧
    (mkMagnifier ⟨none, none, none, none, some ⟨some 32, none, none⟩⟩).ufResize ≠ some 150 ∧
    (mkMagnifier ⟨none, none, none, none, some ⟨some 32, none, none⟩⟩).ufSvg = none :=
  ⟨rfl, fun h => Option.noConfusion h, rfl⟩

/-- C9 (amended): every omitted top-level recognized option takes its
documented default (size 200, zoom 2, position (20,20), mode drag), and
an omitted `updateFrequency` object takes all three defaults (16, 16,
150); but a supplied `updateFrequency` is used verbatim as a whole, so
sub-fields omitted from a partially supplied object stay absent instead
of defaulting. -/
theorem construction_defaults (o : Options) :
    (o.size = none → (mkMagnifier o).size = 200) ∧
    (o.zoom = none → (mkMagnifier o).zoom = 2) ∧
    (o.position = none →
      (mkMagnifier o).positionX = 20 ∧ (mkMagnifier o).positionY = 20) ∧
    (o.activationMode = none → (mkMagnifier o).activationMode = Mode.drag) ∧
    (o.updateFrequency = none →
      (mkMagnifier o).ufMain = some 16 ∧ (mkMagnifier o).ufSvg = some 16 ∧
      (mkMagnifier o).ufResize = some 150) ∧
    (∀ u, o.updateFrequency = some u →
      (mkMagnifier o).ufMain = u.MAIN_SNAPSHOT ∧
      (mkMagnifier o).ufSvg = u.SVG_SNAPSHOT ∧
      (mkMagnifier o).ufResize = u.RESIZE_DEBOUNCE) := by
  refine ⟨fun h => ?_, fun h => ?_, fun h => ?_, fun h => ?_, fun h => ?_,
          fun u h => ?_⟩ <;>
    simp [mkMagnifier, jsOrNum, h]

/-- Witness for C9 at the empty options object. -/
theorem construction_defaults_witness :
    (mkMagnifier defaultOpts).size = 200 ∧ (mkMagnifier defaultOpts).zoom = 2 ∧
    (mkMagnifier defaultOpts).positionX = 20 ∧
    (mkMagnifier defaultOpts).positionY = 20 ∧
    (mkMagnifier defaultOpts).activationMode = Mode.drag ∧
    (mkMagnifier defaultOpts).ufMain = some 16 ∧
    (mkMagnifier defaultOpts).ufSvg = some 16 ∧
    (mkMagnifier defaultOpts).ufResize = some 150 :=
  ⟨(construction_defaults defaultOpts).1 rfl,
   (construction_defaults defaultOpts).2.1 rfl,
   ((construction_defaults defaultOpts).2.2.1 rfl).1,
   ((construction_defaults defaultOpts).2.2.1 rfl).2,
   (construction_defaults defaultOpts).2.2.2.1 rfl,
   ((construction_defaults defaultOpts).2.2.2.2.1 rfl).1,
   ((construction_defaults defaultOpts).2.2.2.2.1 rfl).2.1,
   ((construction_defaults defaultOpts).2.2.2.2.1 rfl).2.2⟩

/-- C10: in drag mode while not dragging, a mouse-move event leaves the
whole instance state unchanged — in particular the stored pointer
position — so the first active frame after a later pointer-down samples
the pointer-down position rather than a stale hover position. -/
theorem dragIdle_mousemove_noop (s : MagState) (x y : ℚ) (svgExists loaded : Bool)
    (hmode : s.activationMode = Mode.drag) (hdrag : s.isDragging = false) :
    handleMouseMove x y svgExists loaded s = s := by
  simp only [handleMouseMove]
  rw [if_neg (by rw [hmode]; exact fun h => Mode.noConfusion h),
      if_neg (by simp [hdrag])]

/-- Witness for C10 on a fresh drag-mode instance. -/
theorem dragIdle_mousemove_noop_witness :
    (mkMagnifier defaultOpts).activationMode = Mode.drag ∧
    (mkMagnifier defaultOpts).isDragging = false ∧
    handleMouseMove 5 7 true true (mkMagnifier defaultOpts) = mkMagnifier defaultOpts :=
  ⟨rfl, rfl, dragIdle_mousemove_noop _ 5 7 true true rfl rfl⟩

end HtmlMagnifier
